import Mathlib

/-
Verification of the Kubernetes action gateway (src/lambda/lambda_function.py)
and its credential lifecycle scripts (src/token_refresher/token_refresher.py,
src/token_manager.py), as a shallow embedding in Lean 4.

Conventions of the embedding:
- Parsed JSON values are modelled by an inductive `Json` type.
- Python exceptions are modelled with `Except String`; a caught exception
  corresponds to matching on the `.error` constructor.
- External effects (environment variables, the EKS `describe_cluster` call,
  and HTTP traffic) are modelled by oracles collected in a `K8sEnv` record;
  an oracle answering `none` models the corresponding call raising.
- `datetime.utcnow().isoformat()` is modelled by a `now : String` argument.
-/

/-- Parsed JSON values (the result of Python's `json.loads`). Numbers are
modelled as integers, which suffices for every value the handler inspects. -/
inductive Json where
  | null : Json
  | bool (b : Bool) : Json
  | num (n : Int) : Json
  | str (s : String) : Json
  | arr (elems : List Json) : Json
  | obj (fields : List (String × Json)) : Json
deriving Repr

/-- Python `v == s` for a parsed-JSON value `v` and a string literal `s`:
equality holds only when `v` is a string equal to `s` (comparing a non-string
JSON value with a Python string is `False`, never an error). -/
def Json.eqStr (j : Json) (s : String) : Bool :=
  match j with
  | .str t => t = s
  | _ => false

/-- First binding of a key in a Python dict literal (keys are unique in all
dicts the handler builds or reads). -/
def Json.lookupField : List (String × Json) → String → Option Json
  | [], _ => none
  | (k, v) :: rest, key => if k = key then some v else Json.lookupField rest key

/-- Python `d[k]` on a parsed-JSON value: raises (`KeyError` / `TypeError`)
unless `d` is a dict containing `k`. -/
def Json.index : Json → String → Except String Json
  | .obj fields, k =>
      match Json.lookupField fields k with
      | some v => .ok v
      | none => .error ("KeyError: " ++ k)
  | _, k => .error ("TypeError: value is not subscriptable by key " ++ k)

/-- Python `d.get(k, default)`: raises (`AttributeError`) unless `d` is a dict. -/
def Json.dictGet : Json → String → Json → Except String Json
  | .obj fields, k, dflt => .ok ((Json.lookupField fields k).getD dflt)
  | _, _, _ => .error "AttributeError: value has no attribute get"

/-- Python truthiness of a parsed-JSON value (`if pods_data:` etc.). -/
def Json.truthy : Json → Bool
  | .null => false
  | .bool b => b
  | .num n => n != 0
  | .str s => s ≠ ""
  | .arr elems => !elems.isEmpty
  | .obj fields => !fields.isEmpty

/-- Python `for x in v`: the handler only ever iterates Kubernetes list
fields, so iteration over a non-array value is modelled as raising. -/
def Json.asList : Json → Except String (List Json)
  | .arr elems => .ok elems
  | _ => .error "TypeError: value is not iterable"

/-- Reading a field of an object, as used in theorem statements
(`envelope.getField? k` is `some v` iff the envelope dict binds `k` to `v`). -/
def Json.getField? : Json → String → Option Json
  | .obj fields, k => Json.lookupField fields k
  | _, _ => none

/-- Removing a field of an object, used to compare envelopes modulo their
`timestamp` field. -/
def Json.dropField : Json → String → Json
  | .obj fields, k => .obj (fields.filter (fun p => p.1 ≠ k))
  | j, _ => j

/-- Outcome of one HTTP exchange as seen by `make_k8s_request`: the status
code, the raw body, and the result of `json.loads` on the body (`none` when
the body is not valid JSON, in which case `json.loads` raises). -/
structure HttpResponse where
  status : Nat
  body : String
  parsed : Option Json
deriving Repr

/-- HTTP methods used by the handler. -/
inductive Method where
  | GET : Method
  | POST : Method
deriving Repr, DecidableEq

/-- External world of the handler: the two environment variables it reads,
the EKS `describe_cluster` lookup (endpoint and CA data; `none` models the
call raising), and the HTTP oracle `http token method url body` (`none`
models a transport-level exception). -/
structure K8sEnv where
  kubernetesToken : Option String
  clusterNameVar : Option String
  describeCluster : String → Option (String × String)
  http : String → Method → String → Option Json → Option HttpResponse

/-- Embedding of `make_k8s_request(url, token, method, data)`: any transport
exception is caught and yields `None`; a 200 or 201 status yields the parsed
body (a parse failure raises and is caught, yielding `None`); any other
status yields `None`. -/
def make_k8s_request (env : K8sEnv) (url : String) (token : String)
    (method : Method := .GET) (data : Option Json := none) : Option Json :=
  match env.http token method url data with
  | none => none
  | some resp =>
      if resp.status = 200 ∨ resp.status = 201 then resp.parsed
      else none

/-- Embedding of `get_kubernetes_config(cluster_name)`: returns
`(endpoint, ca, token)` or `none` (the Python function returns
`(None, None, None)` when `describe_cluster` raises or when the
`KUBERNETES_TOKEN` variable is absent or empty). -/
def get_kubernetes_config (env : K8sEnv) (cluster_name : String) :
    Option (String × String × String) :=
  match env.describeCluster cluster_name with
  | none => none
  | some (endpoint, ca) =>
      match env.kubernetesToken with
      | none => none
      | some token => if token = "" then none else some (endpoint, ca, token)

/-- Success envelope shared by `get_pods_from_cluster`, `check_nodes` and
`describe_pod`: the dict literal
`{timestamp, clusters_checked, data_source, results}`. -/
def results_envelope (now : String) (clusters : List String)
    (results : List Json) : Json :=
  .obj [("timestamp", .str now),
        ("clusters_checked", .arr (clusters.map .str)),
        ("data_source", .str "kubernetes_api"),
        ("results", .arr results)]

/-- Error envelope of the handlers' blanket `except` branches: the dict
literal `{error, timestamp, clusters_checked, data_source}`. -/
def error_envelope (now : String) (clusters : List String) (msg : String) : Json :=
  .obj [("error", .str msg),
        ("timestamp", .str now),
        ("clusters_checked", .arr (clusters.map .str)),
        ("data_source", .str "kubernetes_api")]

/-- Python `for x in xs: out.append(f(x))` collecting projected records:
the first exception raised by `f` aborts the whole loop. -/
def mapME (f : Json → Except String Json) : List Json → Except String (List Json)
  | [] => .ok []
  | x :: xs =>
      match f x with
      | .error e => .error e
      | .ok y =>
          match mapME f xs with
          | .error e => .error e
          | .ok ys => .ok (y :: ys)

/-- Projection of one pod item into the `pod_info` dict built inside
`get_pods_from_cluster` (lines 184-190 of the source). -/
def project_pod (pod : Json) : Except String Json := do
  let md ← pod.index "metadata"
  let name ← md.index "name"
  let pns ← md.index "namespace"
  let st ← pod.index "status"
  let phase ← st.index "phase"
  let spec ← pod.index "spec"
  let node ← spec.dictGet "nodeName" (.str "Unknown")
  let created ← md.index "creationTimestamp"
  return .obj [("name", name), ("namespace", pns), ("status", phase),
               ("node", node), ("created", created)]

/-- URL built by `get_pods_from_cluster` (lines 173-176): the namespaced pods
path when the namespace parameter is truthy (non-empty), the all-pods path
otherwise. -/
def pods_api_url (endpoint ns : String) : String :=
  if ns ≠ "" then endpoint ++ "/api/v1/namespaces/" ++ ns ++ "/pods"
  else endpoint ++ "/api/v1/pods"

/-- One iteration of the cluster loop of `get_pods_from_cluster`: the list of
pod records this cluster contributes (`.ok []` when the cluster is skipped
because its configuration or its API call failed, or the response is falsy;
`.error` when projecting the response raises). -/
def get_pods_cluster (env : K8sEnv) (ns : String) (cluster_name : String) :
    Except String (List Json) :=
  match get_kubernetes_config env cluster_name with
  | none => .ok []
  | some (endpoint, _ca, token) =>
      if endpoint = "" then .ok []
      else
        match make_k8s_request env (pods_api_url endpoint ns) token .GET none with
        | none => .ok []
        | some pods_data =>
            if pods_data.truthy then
              match pods_data.dictGet "items" (.arr []) with
              | .error e => .error e
              | .ok items =>
                  match items.asList with
                  | .error e => .error e
                  | .ok itemsL => mapME project_pod itemsL
            else .ok []

/-- The cluster loop of `get_pods_from_cluster`, accumulating `results` in
cluster-list order; the first uncaught exception aborts the whole loop. -/
def get_pods_loop (env : K8sEnv) (ns : String) :
    List String → Except String (List Json)
  | [] => .ok []
  | c :: rest =>
      match get_pods_cluster env ns c with
      | .error e => .error e
      | .ok contrib =>
          match get_pods_loop env ns rest with
          | .error e => .error e
          | .ok tail => .ok (contrib ++ tail)

/-- Embedding of `get_pods_from_cluster(clusters, namespace)`. -/
def get_pods_from_cluster (env : K8sEnv) (now : String) (clusters : List String)
    (ns : String := "") : Json :=
  match get_pods_loop env ns clusters with
  | .ok results => results_envelope now clusters results
  | .error e => error_envelope now clusters e

/-- Projection of one namespace item into the `ns_info` dict built inside
`get_cluster_data_with_real_kubernetes_api` (lines 230-235). -/
def project_namespace (nsj : Json) : Except String Json := do
  let md ← nsj.index "metadata"
  let name ← md.index "name"
  let st ← nsj.index "status"
  let phase ← st.index "phase"
  let created ← md.index "creationTimestamp"
  let labels ← md.dictGet "labels" (.obj [])
  return .obj [("name", name), ("status", phase), ("created", created),
               ("labels", labels)]

/-- One iteration of the cluster loop of
`get_cluster_data_with_real_kubernetes_api`: zero or one `cluster_info`
dicts for this cluster. -/
def cluster_data_cluster (env : K8sEnv) (cluster_name : String) :
    Except String (List Json) :=
  match get_kubernetes_config env cluster_name with
  | none => .ok []
  | some (endpoint, _ca, token) =>
      if endpoint = "" then .ok []
      else
        match make_k8s_request env (endpoint ++ "/api/v1/namespaces") token .GET none with
        | none => .ok []
        | some data =>
            if data.truthy then
              match data.dictGet "items" (.arr []) with
              | .error e => .error e
              | .ok items =>
                  match items.asList with
                  | .error e => .error e
                  | .ok itemsL =>
                      match mapME project_namespace itemsL with
                      | .error e => .error e
                      | .ok namespaces =>
                          .ok [.obj [("cluster_name", .str cluster_name),
                                     ("endpoint", .str endpoint),
                                     ("namespaces", .arr namespaces),
                                     ("namespace_count", .num namespaces.length)]]
            else .ok []

/-- The cluster loop of `get_cluster_data_with_real_kubernetes_api`. -/
def cluster_data_loop (env : K8sEnv) :
    List String → Except String (List Json)
  | [] => .ok []
  | c :: rest =>
      match cluster_data_cluster env c with
      | .error e => .error e
      | .ok contrib =>
          match cluster_data_loop env rest with
          | .error e => .error e
          | .ok tail => .ok (contrib ++ tail)

/-- Embedding of `get_cluster_data_with_real_kubernetes_api(clusters,
namespace)`; the namespace parameter is unused by the source function. -/
def get_cluster_data_with_real_kubernetes_api (env : K8sEnv) (now : String)
    (clusters : List String) (_ns : String := "") : Json :=
  match cluster_data_loop env clusters with
  | .ok cluster_data =>
      .obj [("timestamp", .str now),
            ("clusters_checked", .arr (clusters.map .str)),
            ("data_source", .str "kubernetes_api"),
            ("clusters", .arr cluster_data),
            ("summary", .str ("Found " ++ toString cluster_data.length ++
              " clusters with namespace information"))]
  | .error e =>
      .obj [("error", .str e),
            ("timestamp", .str now),
            ("clusters_checked", .arr (clusters.map .str)),
            ("data_source", .str "kubernetes_api"),
            ("clusters", .arr []),
            ("summary", .str ("Error retrieving cluster data: " ++ e))]

/-- Python `condition['type'] == 'Ready' and condition['status'] == 'True'`
for one entry of a node's condition list; raises when the entry lacks either
key. -/
def node_condition_ready (c : Json) : Except String Bool :=
  match c.index "type" with
  | .error e => .error e
  | .ok t =>
      match c.index "status" with
      | .error e => .error e
      | .ok s => .ok (t.eqStr "Ready" && s.eqStr "True")

/-- Python `any(... for condition in conditions)` in `check_nodes` (lines
284-285): short-circuits at the first matching condition, so a condition
after a match is never inspected. -/
def any_condition_ready : List Json → Except String Bool
  | [] => .ok false
  | c :: rest =>
      match node_condition_ready c with
      | .error e => .error e
      | .ok b => if b then .ok true else any_condition_ready rest

/-- Projection of one node item into the `node_info` dict built inside
`check_nodes` (lines 282-289). -/
def project_node (node : Json) : Except String Json := do
  let md ← node.index "metadata"
  let name ← md.index "name"
  let st ← node.index "status"
  let conds ← st.index "conditions"
  let condsL ← conds.asList
  let ready ← any_condition_ready condsL
  let ni ← st.index "nodeInfo"
  let version ← ni.index "kubeletVersion"
  let labels ← md.index "labels"
  let instance_type ← labels.dictGet "node.kubernetes.io/instance-type" (.str "Unknown")
  let created ← md.index "creationTimestamp"
  return .obj [("name", name),
               ("status", .str (if ready then "Ready" else "NotReady")),
               ("version", version),
               ("instance_type", instance_type),
               ("created", created)]

/-- One iteration of the cluster loop of `check_nodes`. -/
def check_nodes_cluster (env : K8sEnv) (cluster_name : String) :
    Except String (List Json) :=
  match get_kubernetes_config env cluster_name with
  | none => .ok []
  | some (endpoint, _ca, token) =>
      if endpoint = "" then .ok []
      else
        match make_k8s_request env (endpoint ++ "/api/v1/nodes") token .GET none with
        | none => .ok []
        | some nodes_data =>
            if nodes_data.truthy then
              match nodes_data.dictGet "items" (.arr []) with
              | .error e => .error e
              | .ok items =>
                  match items.asList with
                  | .error e => .error e
                  | .ok itemsL => mapME project_node itemsL
            else .ok []

/-- The cluster loop of `check_nodes`. -/
def check_nodes_loop (env : K8sEnv) :
    List String → Except String (List Json)
  | [] => .ok []
  | c :: rest =>
      match check_nodes_cluster env c with
      | .error e => .error e
      | .ok contrib =>
          match check_nodes_loop env rest with
          | .error e => .error e
          | .ok tail => .ok (contrib ++ tail)

/-- Embedding of `check_nodes(clusters)`. -/
def check_nodes (env : K8sEnv) (now : String) (clusters : List String) : Json :=
  match check_nodes_loop env clusters with
  | .ok results => results_envelope now clusters results
  | .error e => error_envelope now clusters e

/-- Projection of one container entry into the `container_info` dict built
inside `describe_pod` (lines 334-340). -/
def project_container (c : Json) : Except String Json := do
  let name ← c.index "name"
  let image ← c.index "image"
  let ports ← c.dictGet "ports" (.arr [])
  return .obj [("name", name), ("image", image), ("ports", ports)]

/-- Projection of the single-pod response into the `pod_info` dict built
inside `describe_pod` (lines 324-340). -/
def project_described_pod (pod_data : Json) : Except String Json := do
  let md ← pod_data.index "metadata"
  let name ← md.index "name"
  let pns ← md.index "namespace"
  let st ← pod_data.index "status"
  let phase ← st.index "phase"
  let spec ← pod_data.index "spec"
  let node ← spec.dictGet "nodeName" (.str "Unknown")
  let created ← md.index "creationTimestamp"
  let conditions ← st.dictGet "conditions" (.arr [])
  let containersJ ← spec.index "containers"
  let containersL ← containersJ.asList
  let containers ← mapME project_container containersL
  return .obj [("name", name), ("namespace", pns), ("status", phase),
               ("node", node), ("created", created),
               ("containers", .arr containers),
               ("conditions", conditions)]

/-- One iteration of the cluster loop of `describe_pod`: zero or one pod
dicts for this cluster. -/
def describe_pod_cluster (env : K8sEnv) (pod_name ns : String)
    (cluster_name : String) : Except String (List Json) :=
  match get_kubernetes_config env cluster_name with
  | none => .ok []
  | some (endpoint, _ca, token) =>
      if endpoint = "" then .ok []
      else
        match make_k8s_request env
            (endpoint ++ "/api/v1/namespaces/" ++ ns ++ "/pods/" ++ pod_name)
            token .GET none with
        | none => .ok []
        | some pod_data =>
            if pod_data.truthy then
              match project_described_pod pod_data with
              | .error e => .error e
              | .ok info => .ok [info]
            else .ok []

/-- The cluster loop of `describe_pod`. -/
def describe_pod_loop (env : K8sEnv) (pod_name ns : String) :
    List String → Except String (List Json)
  | [] => .ok []
  | c :: rest =>
      match describe_pod_cluster env pod_name ns c with
      | .error e => .error e
      | .ok contrib =>
          match describe_pod_loop env pod_name ns rest with
          | .error e => .error e
          | .ok tail => .ok (contrib ++ tail)

/-- Embedding of `describe_pod(clusters, pod_name, namespace)`. -/
def describe_pod (env : K8sEnv) (now : String) (clusters : List String)
    (pod_name : String) (ns : String := "default") : Json :=
  match describe_pod_loop env pod_name ns clusters with
  | .ok results => results_envelope now clusters results
  | .error e => error_envelope now clusters e

/-- The API paths the handler's routing chain recognizes, in the order they
are listed in the unknown-path branch (line 69). -/
def recognized_paths : List String :=
  ["/get-pods", "/analyze-namespace", "/get-cluster-health", "/check-nodes",
   "/describe-pod"]

/-- Result dict of the unknown-path branch (lines 67-70). -/
def unknown_path_result (api_path : String) : Json :=
  .obj [("error", .str ("Unknown API path: " ++ api_path)),
        ("available_paths", .arr (recognized_paths.map .str))]

/-- Inbound Bedrock Agent event, as consumed by `lambda_handler`:
`properties` is the `requestBody.content."application/json".properties`
list of name/value pairs, in order. -/
structure BedrockEvent where
  actionGroup : String
  apiPath : String
  httpMethod : String
  properties : List (String × String)

/-- Python `parameters.get(key, dflt)` on the dict built from the
properties list (lines 32-40): later occurrences of the same name
overwrite earlier ones, so the last binding wins. -/
def param_get (props : List (String × String)) (key dflt : String) : String :=
  match props.reverse.find? (fun p => p.1 = key) with
  | some p => p.2
  | none => dflt

/-- The configured cluster list (line 45):
`[os.environ.get('CLUSTER_NAME', 'test-cluster-production')]`. -/
def configured_clusters (env : K8sEnv) : List String :=
  [env.clusterNameVar.getD "test-cluster-production"]

/-- The routing chain of `lambda_handler` (lines 49-70): the result dict
passed to the response wrapper. -/
def route (env : K8sEnv) (now : String) (api_path : String)
    (props : List (String × String)) : Json :=
  let clusters := configured_clusters env
  if api_path = "/get-pods" then
    get_pods_from_cluster env now clusters (param_get props "namespace" "")
  else if api_path = "/analyze-namespace" then
    get_cluster_data_with_real_kubernetes_api env now clusters
      (param_get props "namespace" "")
  else if api_path = "/get-cluster-health" then
    get_cluster_data_with_real_kubernetes_api env now clusters
  else if api_path = "/check-nodes" then
    check_nodes env now clusters
  else if api_path = "/describe-pod" then
    describe_pod env now clusters (param_get props "pod_name" "")
      (param_get props "namespace" "default")
  else
    unknown_path_result api_path

/-- Outbound Bedrock Agent response (lines 76-89); `body` holds the result
dict before its `json.dumps` serialization. -/
structure BedrockResponse where
  messageVersion : String
  actionGroup : String
  apiPath : String
  httpMethod : String
  httpStatusCode : Nat
  body : Json

/-- Embedding of `lambda_handler(event, context)` on a well-formed event:
every branch of the routing chain returns a result dict without raising, so
the 200 wrapper is always taken. -/
def lambda_handler (env : K8sEnv) (now : String) (event : BedrockEvent) :
    BedrockResponse :=
  { messageVersion := "1.0"
    actionGroup := event.actionGroup
    apiPath := event.apiPath
    httpMethod := event.httpMethod
    httpStatusCode := 200
    body := route env now event.apiPath event.properties }

/-- Environment-variable map of a managed function, as replaced by the token
refresh scripts. -/
structure LambdaConfig where
  vars : List (String × String)

/-- Python dict lookup on an environment-variable map. -/
def lookup_var : List (String × String) → String → Option String
  | [], _ => none
  | (k, v) :: rest, key => if k = key then some v else lookup_var rest key

/-- Reading one variable of a `LambdaConfig`. -/
def LambdaConfig.getVar (cfg : LambdaConfig) (k : String) : Option String :=
  lookup_var cfg.vars k

/-- The `env_vars` dict of `update_lambda_environment` in
src/token_refresher/token_refresher.py (lines 75-82). -/
def refresher_env_vars (token cluster_name now : String) :
    List (String × String) :=
  [("LOG_LEVEL", "INFO"),
   ("KUBERNETES_TOKEN", token),
   ("CLUSTER_NAME", cluster_name),
   ("ENVIRONMENT", "production"),
   ("PROJECT", "bedrock-sre-agent"),
   ("TOKEN_UPDATED", now)]

/-- Embedding of `update_lambda_environment(function_name, token,
cluster_name)`: AWS `update_function_configuration` with an `Environment`
argument replaces the function's whole variable map with exactly the given
dict. `awsOk = false` models the client call raising, which the function
catches, returning `False` with the previous configuration untouched. -/
def update_lambda_environment (awsOk : Bool) (prev : LambdaConfig)
    (token cluster_name now : String) : Bool × LambdaConfig :=
  if awsOk then (true, ⟨refresher_env_vars token cluster_name now⟩)
  else (false, prev)

/-- The `env_vars` dict of `update_lambda_token` in src/token_manager.py
(lines 30-36). -/
def manager_env_vars (token : String) : List (String × String) :=
  [("LOG_LEVEL", "INFO"),
   ("KUBERNETES_TOKEN", token),
   ("CLUSTER_NAME", "test-cluster-production"),
   ("ENVIRONMENT", "production"),
   ("PROJECT", "bedrock-sre-agent")]

/-- Embedding of `update_lambda_token(token)` of src/token_manager.py, with
the same replacement semantics as `update_lambda_environment`. -/
def update_lambda_token (awsOk : Bool) (prev : LambdaConfig)
    (token : String) : Bool × LambdaConfig :=
  if awsOk then (true, ⟨manager_env_vars token⟩)
  else (false, prev)

/-- Modelled from the spec: the repository's base handler variant, which
implements the `/create-pod` action, is not among the source files (only the
extended variant, without `/create-pod`, is). Minimal Pod manifest of
`CreatePod(name, image, namespace)` per spec 4.3: one container named after
the pod, the given image, container port 80 declared, restart policy
"Always", and a `created-by` label naming this gateway. -/
def create_pod_manifest (pod_name image ns : String) : Json :=
  .obj [("apiVersion", .str "v1"),
        ("kind", .str "Pod"),
        ("metadata", .obj [("name", .str pod_name),
                           ("namespace", .str ns),
                           ("labels", .obj [("created-by", .str "bedrock-sre-agent")])]),
        ("spec", .obj [("containers",
                         .arr [.obj [("name", .str pod_name),
                                     ("image", .str image),
                                     ("ports", .arr [.obj [("containerPort", .num 80)]])]]),
                       ("restartPolicy", .str "Always")])]

/-- Modelled from the spec: the per-cluster `created` result of `CreatePod`
(spec 8: `{status: "created", pod_name, image, namespace}`, plus the cluster
name for attribution). -/
def create_pod_created (cluster pod_name image ns : String) : Json :=
  .obj [("cluster", .str cluster),
        ("status", .str "created"),
        ("pod_name", .str pod_name),
        ("image", .str image),
        ("namespace", .str ns)]

/-- Modelled from the spec: the per-cluster `failed` result of `CreatePod`,
carrying the HTTP status code and raw body (spec 8:
`{status: "failed", error: "HTTP 409: ..."}`). -/
def create_pod_failed (cluster : String) (status : Nat) (body : String) : Json :=
  .obj [("cluster", .str cluster),
        ("status", .str "failed"),
        ("error", .str ("HTTP " ++ toString status ++ ": " ++ body))]

/-- Modelled from the spec: one cluster's step of `CreatePod` (spec 4.3):
resolve the credential, skip silently on `NotFound`, POST the manifest to
`/api/v1/namespaces/{ns}/pods`, and report `created` on a 20x status or
`failed` otherwise; a transport failure is also reported as `failed`. The
step is total, so the operation never raises past its boundary. -/
def create_pod_cluster (env : K8sEnv) (pod_name image ns : String)
    (cluster_name : String) : Option Json :=
  match get_kubernetes_config env cluster_name with
  | none => none
  | some (endpoint, _ca, token) =>
      if endpoint = "" then none
      else
        match env.http token Method.POST
            (endpoint ++ "/api/v1/namespaces/" ++ ns ++ "/pods")
            (some (create_pod_manifest pod_name image ns)) with
        | none => some (create_pod_failed cluster_name 0 "transport error")
        | some resp =>
            if 200 ≤ resp.status ∧ resp.status < 300 then
              some (create_pod_created cluster_name pod_name image ns)
            else
              some (create_pod_failed cluster_name resp.status resp.body)

/-- Modelled from the spec: the `CreatePod` operation (spec 4.3), iterating
the configured cluster list in order and aggregating the per-cluster results
into a response envelope. -/
def create_pod (env : K8sEnv) (now : String) (clusters : List String)
    (pod_name image ns : String) : Json :=
  .obj [("timestamp", .str now),
        ("clusters_checked", .arr (clusters.map .str)),
        ("data_source", .str "kubernetes_api"),
        ("results", .arr (clusters.filterMap (create_pod_cluster env pod_name image ns)))]

/-- Modelled from the spec: the `/create-pod` arm of the base handler
variant's routing chain (spec 4.4), with the defaults `name="test-pod"`,
`image="nginx"`, `namespace="default"`; the variant's read arms are not
needed by any claim and are not modelled. -/
def route_base (env : K8sEnv) (now : String) (api_path : String)
    (props : List (String × String)) : Json :=
  if api_path = "/create-pod" then
    create_pod env now (configured_clusters env)
      (param_get props "name" "test-pod")
      (param_get props "image" "nginx")
      (param_get props "namespace" "default")
  else
    unknown_path_result api_path

/- Helper lemmas shared by several of the claim theorems below. -/

theorem results_envelope_results (now : String) (cl : List String) (r : List Json) :
    (results_envelope now cl r).getField? "results" = some (.arr r) := rfl

theorem results_envelope_clusters (now : String) (cl : List String) (r : List Json) :
    (results_envelope now cl r).getField? "clusters_checked" =
      some (.arr (cl.map .str)) := rfl

theorem error_envelope_results (now : String) (cl : List String) (e : String) :
    (error_envelope now cl e).getField? "results" = none := rfl

theorem error_envelope_clusters (now : String) (cl : List String) (e : String) :
    (error_envelope now cl e).getField? "clusters_checked" =
      some (.arr (cl.map .str)) := rfl

theorem get_pods_loop_cons (env : K8sEnv) (ns c : String) (rest : List String) :
    get_pods_loop env ns (c :: rest) =
      match get_pods_cluster env ns c with
      | .error e => .error e
      | .ok contrib =>
          match get_pods_loop env ns rest with
          | .error e => .error e
          | .ok tail => .ok (contrib ++ tail) := rfl

theorem check_nodes_loop_cons (env : K8sEnv) (c : String) (rest : List String) :
    check_nodes_loop env (c :: rest) =
      match check_nodes_cluster env c with
      | .error e => .error e
      | .ok contrib =>
          match check_nodes_loop env rest with
          | .error e => .error e
          | .ok tail => .ok (contrib ++ tail) := rfl

theorem get_pods_loop_drop (env : K8sEnv) (ns c : String)
    (hc : get_pods_cluster env ns c = Except.ok [])
    (pre post : List String) :
    get_pods_loop env ns (pre ++ c :: post) = get_pods_loop env ns (pre ++ post) := by
  induction pre with
  | nil =>
      rw [List.nil_append, List.nil_append, get_pods_loop_cons, hc]
      cases get_pods_loop env ns post <;> rfl
  | cons p pre ih =>
      rw [List.cons_append, List.cons_append, get_pods_loop_cons, ih,
        ← get_pods_loop_cons]

theorem check_nodes_loop_drop (env : K8sEnv) (c : String)
    (hc : check_nodes_cluster env c = Except.ok [])
    (pre post : List String) :
    check_nodes_loop env (pre ++ c :: post) = check_nodes_loop env (pre ++ post) := by
  induction pre with
  | nil =>
      rw [List.nil_append, List.nil_append, check_nodes_loop_cons, hc]
      cases check_nodes_loop env post <;> rfl
  | cons p pre ih =>
      rw [List.cons_append, List.cons_append, check_nodes_loop_cons, ih,
        ← check_nodes_loop_cons]

theorem get_pods_clusters_checked (env : K8sEnv) (now ns : String)
    (clusters : List String) :
    (get_pods_from_cluster env now clusters ns).getField? "clusters_checked" =
      some (.arr (clusters.map .str)) := by
  unfold get_pods_from_cluster
  cases get_pods_loop env ns clusters <;> rfl

theorem check_nodes_clusters_checked (env : K8sEnv) (now : String)
    (clusters : List String) :
    (check_nodes env now clusters).getField? "clusters_checked" =
      some (.arr (clusters.map .str)) := by
  unfold check_nodes
  cases check_nodes_loop env clusters <;> rfl

theorem cluster_data_clusters_checked (env : K8sEnv) (now ns : String)
    (clusters : List String) :
    (get_cluster_data_with_real_kubernetes_api env now clusters ns).getField?
      "clusters_checked" = some (.arr (clusters.map .str)) := by
  unfold get_cluster_data_with_real_kubernetes_api
  cases cluster_data_loop env clusters <;> rfl

theorem describe_pod_clusters_checked (env : K8sEnv) (now pod_name ns : String)
    (clusters : List String) :
    (describe_pod env now clusters pod_name ns).getField? "clusters_checked" =
      some (.arr (clusters.map .str)) := by
  unfold describe_pod
  cases describe_pod_loop env pod_name ns clusters <;> rfl

/-- C2: for every recognized action identifier, the response envelope's
`clusters_checked` field equals the configured cluster list, element for
element in the same order, regardless of per-cluster success or failure
(every operation emits `clusters_checked := clusters` on both its success
and its error path). -/
theorem claim_C2_clusters_checked (env : K8sEnv) (now : String)
    (event : BedrockEvent) (h : event.apiPath ∈ recognized_paths) :
    (lambda_handler env now event).body.getField? "clusters_checked" =
      some (.arr ((configured_clusters env).map .str)) := by
  have hc : event.apiPath = "/get-pods" ∨ event.apiPath = "/analyze-namespace" ∨
      event.apiPath = "/get-cluster-health" ∨ event.apiPath = "/check-nodes" ∨
      event.apiPath = "/describe-pod" := by
    simpa [recognized_paths] using h
  rcases hc with h1 | h1 | h1 | h1 | h1 <;>
    simp [lambda_handler, route, h1, get_pods_clusters_checked,
      cluster_data_clusters_checked, check_nodes_clusters_checked,
      describe_pod_clusters_checked]

/-- C2 witness: the `/check-nodes` action against a cluster whose lookups
all fail still reports the configured cluster. -/
theorem claim_C2_clusters_checked_witness :
    ("/check-nodes" ∈ recognized_paths) ∧
    (lambda_handler ⟨none, none, fun _ => none, fun _ _ _ _ => none⟩ "T"
        ⟨"ag", "/check-nodes", "POST", []⟩).body.getField? "clusters_checked" =
      some (.arr ((configured_clusters
        ⟨none, none, fun _ => none, fun _ _ _ _ => none⟩).map .str)) :=
  ⟨by simp [recognized_paths],
   claim_C2_clusters_checked _ "T" ⟨"ag", "/check-nodes", "POST", []⟩
     (by simp [recognized_paths])⟩

/-- C6: for every action identifier outside the recognized set, the handler
returns the 200 wrapper (never 500) and the result dict carries the
offending identifier (inside the `error` string) together with the complete
list of valid identifiers (`available_paths`). -/
theorem claim_C6_unknown_path (env : K8sEnv) (now : String)
    (event : BedrockEvent) (h : event.apiPath ∉ recognized_paths) :
    (lambda_handler env now event).httpStatusCode = 200 ∧
    (lambda_handler env now event).body.getField? "error" =
      some (.str ("Unknown API path: " ++ event.apiPath)) ∧
    (lambda_handler env now event).body.getField? "available_paths" =
      some (.arr (recognized_paths.map .str)) := by
  have hc : ¬ event.apiPath = "/get-pods" ∧ ¬ event.apiPath = "/analyze-namespace" ∧
      ¬ event.apiPath = "/get-cluster-health" ∧ ¬ event.apiPath = "/check-nodes" ∧
      ¬ event.apiPath = "/describe-pod" := by
    simpa [recognized_paths, not_or] using h
  obtain ⟨h1, h2, h3, h4, h5⟩ := hc
  refine ⟨rfl, ?_, ?_⟩ <;>
    simp [lambda_handler, route, h1, h2, h3, h4, h5, unknown_path_result,
      Json.getField?, Json.lookupField, recognized_paths]

/-- C6 witness: the unrecognized identifier `/create-pod` (absent from this
handler variant's routing chain) gets the 200 envelope listing it and the
valid identifiers. -/
theorem claim_C6_unknown_path_witness :
    ("/create-pod" ∉ recognized_paths) ∧
    ((lambda_handler ⟨none, none, fun _ => none, fun _ _ _ _ => none⟩ "T"
        ⟨"ag", "/create-pod", "POST", []⟩).httpStatusCode = 200 ∧
      (lambda_handler ⟨none, none, fun _ => none, fun _ _ _ _ => none⟩ "T"
        ⟨"ag", "/create-pod", "POST", []⟩).body.getField? "error" =
        some (.str ("Unknown API path: " ++ "/create-pod")) ∧
      (lambda_handler ⟨none, none, fun _ => none, fun _ _ _ _ => none⟩ "T"
        ⟨"ag", "/create-pod", "POST", []⟩).body.getField? "available_paths" =
        some (.arr (recognized_paths.map .str))) :=
  ⟨by simp [recognized_paths],
   claim_C6_unknown_path _ "T" ⟨"ag", "/create-pod", "POST", []⟩
     (by simp [recognized_paths])⟩

/-- C9: two invocations of the pods listing with the same cluster list, the
same namespace parameter and the same external world (hence identical
per-cluster API responses) return envelopes identical in every field except
`timestamp`, whose value is exactly the invocation's clock reading. -/
theorem claim_C9_idempotent (env : K8sEnv) (clusters : List String)
    (ns t1 t2 : String) :
    (get_pods_from_cluster env t1 clusters ns).dropField "timestamp" =
      (get_pods_from_cluster env t2 clusters ns).dropField "timestamp" ∧
    (get_pods_from_cluster env t1 clusters ns).getField? "timestamp" =
      some (.str t1) := by
  unfold get_pods_from_cluster
  cases get_pods_loop env ns clusters <;> exact ⟨rfl, rfl⟩

/-- C10: a successful token refresh replaces the target function's whole
environment-variable map with exactly the fixed dict — `LOG_LEVEL` is reset
to "INFO" whatever it was, `KUBERNETES_TOKEN` carries the new token, and
every other previously-set variable is gone; the scheduled refresher's dict
additionally holds `TOKEN_UPDATED`, the manager's does not. -/
theorem claim_C10_refresh_replaces (prev1 prev2 : LambdaConfig)
    (token cluster_name now k1 k2 : String) (ok1 ok2 : Bool)
    (h1 : (update_lambda_environment ok1 prev1 token cluster_name now).1 = true)
    (h2 : (update_lambda_token ok2 prev2 token).1 = true)
    (hk1 : k1 ∉ ["LOG_LEVEL", "KUBERNETES_TOKEN", "CLUSTER_NAME",
      "ENVIRONMENT", "PROJECT", "TOKEN_UPDATED"])
    (hk2 : k2 ∉ ["LOG_LEVEL", "KUBERNETES_TOKEN", "CLUSTER_NAME",
      "ENVIRONMENT", "PROJECT"]) :
    ((update_lambda_environment ok1 prev1 token cluster_name now).2).vars =
      refresher_env_vars token cluster_name now ∧
    ((update_lambda_environment ok1 prev1 token cluster_name now).2).getVar
      "LOG_LEVEL" = some "INFO" ∧
    ((update_lambda_environment ok1 prev1 token cluster_name now).2).getVar
      "KUBERNETES_TOKEN" = some token ∧
    ((update_lambda_environment ok1 prev1 token cluster_name now).2).getVar
      "TOKEN_UPDATED" = some now ∧
    ((update_lambda_environment ok1 prev1 token cluster_name now).2).getVar k1 =
      none ∧
    ((update_lambda_token ok2 prev2 token).2).vars = manager_env_vars token ∧
    ((update_lambda_token ok2 prev2 token).2).getVar "LOG_LEVEL" = some "INFO" ∧
    ((update_lambda_token ok2 prev2 token).2).getVar "TOKEN_UPDATED" = none ∧
    ((update_lambda_token ok2 prev2 token).2).getVar k2 = none := by
  cases ok1 with
  | false => simp [update_lambda_environment] at h1
  | true =>
    cases ok2 with
    | false => simp [update_lambda_token] at h2
    | true =>
      have hn1 : ¬ k1 = "LOG_LEVEL" ∧ ¬ k1 = "KUBERNETES_TOKEN" ∧
          ¬ k1 = "CLUSTER_NAME" ∧ ¬ k1 = "ENVIRONMENT" ∧ ¬ k1 = "PROJECT" ∧
          ¬ k1 = "TOKEN_UPDATED" := by simpa [not_or] using hk1
      have hn2 : ¬ k2 = "LOG_LEVEL" ∧ ¬ k2 = "KUBERNETES_TOKEN" ∧
          ¬ k2 = "CLUSTER_NAME" ∧ ¬ k2 = "ENVIRONMENT" ∧ ¬ k2 = "PROJECT" := by
        simpa [not_or] using hk2
      obtain ⟨a1, a2, a3, a4, a5, a6⟩ := hn1
      obtain ⟨b1, b2, b3, b4, b5⟩ := hn2
      have m1 : ("LOG_LEVEL" : String) ≠ k1 := fun h => a1 h.symm
      have m2 : ("KUBERNETES_TOKEN" : String) ≠ k1 := fun h => a2 h.symm
      have m3 : ("CLUSTER_NAME" : String) ≠ k1 := fun h => a3 h.symm
      have m4 : ("ENVIRONMENT" : String) ≠ k1 := fun h => a4 h.symm
      have m5 : ("PROJECT" : String) ≠ k1 := fun h => a5 h.symm
      have m6 : ("TOKEN_UPDATED" : String) ≠ k1 := fun h => a6 h.symm
      have w1 : ("LOG_LEVEL" : String) ≠ k2 := fun h => b1 h.symm
      have w2 : ("KUBERNETES_TOKEN" : String) ≠ k2 := fun h => b2 h.symm
      have w3 : ("CLUSTER_NAME" : String) ≠ k2 := fun h => b3 h.symm
      have w4 : ("ENVIRONMENT" : String) ≠ k2 := fun h => b4 h.symm
      have w5 : ("PROJECT" : String) ≠ k2 := fun h => b5 h.symm
      refine ⟨rfl, rfl, rfl, rfl, ?_, rfl, rfl, rfl, ?_⟩
      · simp [update_lambda_environment, LambdaConfig.getVar,
          refresher_env_vars, lookup_var, m1, m2, m3, m4, m5, m6]
      · simp [update_lambda_token, LambdaConfig.getVar, manager_env_vars,
          lookup_var, w1, w2, w3, w4, w5]

/-- C10 witness: a refresh over a function that previously carried an extra
`DEBUG_MODE` variable and `LOG_LEVEL = "DEBUG"`. -/
theorem claim_C10_refresh_replaces_witness :
    (update_lambda_environment true ⟨[("DEBUG_MODE", "on"), ("LOG_LEVEL", "DEBUG")]⟩
        "tkn" "test-cluster-production" "2024-01-01T00:00:00").1 = true ∧
    (update_lambda_token true ⟨[("DEBUG_MODE", "on")]⟩ "tkn").1 = true ∧
    ("DEBUG_MODE" ∉ ["LOG_LEVEL", "KUBERNETES_TOKEN", "CLUSTER_NAME",
      "ENVIRONMENT", "PROJECT", "TOKEN_UPDATED"]) ∧
    ((update_lambda_environment true ⟨[("DEBUG_MODE", "on"), ("LOG_LEVEL", "DEBUG")]⟩
        "tkn" "test-cluster-production" "2024-01-01T00:00:00").2).getVar
      "DEBUG_MODE" = none ∧
    ((update_lambda_environment true ⟨[("DEBUG_MODE", "on"), ("LOG_LEVEL", "DEBUG")]⟩
        "tkn" "test-cluster-production" "2024-01-01T00:00:00").2).getVar
      "LOG_LEVEL" = some "INFO" :=
  ⟨rfl, rfl, by decide,
   (claim_C10_refresh_replaces ⟨[("DEBUG_MODE", "on"), ("LOG_LEVEL", "DEBUG")]⟩
      ⟨[("DEBUG_MODE", "on")]⟩ "tkn" "test-cluster-production"
      "2024-01-01T00:00:00" "DEBUG_MODE" "DEBUG_MODE" true true rfl rfl
      (by decide) (by decide)).2.2.2.2.1,
   (claim_C10_refresh_replaces ⟨[("DEBUG_MODE", "on"), ("LOG_LEVEL", "DEBUG")]⟩
      ⟨[("DEBUG_MODE", "on")]⟩ "tkn" "test-cluster-production"
      "2024-01-01T00:00:00" "DEBUG_MODE" "DEBUG_MODE" true true rfl rfl
      (by decide) (by decide)).2.1⟩

/-- Environment used to refute C5 as stated: every request — whatever the
method — is answered with HTTP status 201 and a parseable JSON body. -/
def envC5 : K8sEnv :=
  { kubernetesToken := some "tok"
    clusterNameVar := none
    describeCluster := fun _ => none
    http := fun _ _ _ _ =>
      some { status := 201, body := "x", parsed := some (.obj []) } }

/-- C5 counterexample: a GET whose response has status 201 (and a parseable
body) returns the parsed JSON value rather than the error outcome, so the
claim that a GET succeeds exactly on status 200 is false — the source
accepts 200 or 201 for both methods (line 152). -/
theorem claim_C5_counterexample :
    envC5.http "tok" Method.GET "https://ep/api/v1/pods" none =
      some { status := 201, body := "x", parsed := some (.obj []) } ∧
    make_k8s_request envC5 "https://ep/api/v1/pods" "tok" Method.GET none =
      some (.obj []) ∧
    (201 : Nat) ≠ 200 :=
  ⟨rfl, rfl, by decide⟩

/-- C5 amended: the client request returns a parsed JSON value exactly when
the HTTP status is 200 or 201 — for GET and POST alike — and the body
parses as JSON; for any other status, a transport failure, or a non-JSON
body it yields the error outcome instead. -/
theorem claim_C5_amended (env : K8sEnv) (url token : String) (m : Method)
    (d : Option Json) (v : Json) :
    make_k8s_request env url token m d = some v ↔
      ∃ resp, env.http token m url d = some resp ∧
        (resp.status = 200 ∨ resp.status = 201) ∧ resp.parsed = some v := by
  unfold make_k8s_request
  cases h : env.http token m url d with
  | none => simp
  | some resp =>
      by_cases hs : resp.status = 200 ∨ resp.status = 201
      · simp [hs]
      · simp [hs]

/-- C7: a cluster whose credential lookup fails (`describe_cluster` raising,
or no / empty token — the source's `(None, None, None)` return) contributes
zero entries to every read operation: it is absent from the aggregate rather
than present with an error entry, the aggregate over the list with the
cluster equals the aggregate over the list without it, and the cluster name
still appears in `clusters_checked`. -/
theorem claim_C7_notfound_skip (env : K8sEnv) (now ns pod_name c : String)
    (pre post : List String)
    (hcfg : get_kubernetes_config env c = none) :
    get_pods_cluster env ns c = Except.ok [] ∧
    check_nodes_cluster env c = Except.ok [] ∧
    cluster_data_cluster env c = Except.ok [] ∧
    describe_pod_cluster env pod_name ns c = Except.ok [] ∧
    (get_pods_from_cluster env now (pre ++ c :: post) ns).getField? "results" =
      (get_pods_from_cluster env now (pre ++ post) ns).getField? "results" ∧
    (get_pods_from_cluster env now (pre ++ c :: post) ns).getField?
      "clusters_checked" = some (.arr ((pre ++ c :: post).map .str)) ∧
    c ∈ pre ++ c :: post := by
  have hp : get_pods_cluster env ns c = Except.ok [] := by
    unfold get_pods_cluster; rw [hcfg]
  have hn : check_nodes_cluster env c = Except.ok [] := by
    unfold check_nodes_cluster; rw [hcfg]
  have hd : cluster_data_cluster env c = Except.ok [] := by
    unfold cluster_data_cluster; rw [hcfg]
  have hq : describe_pod_cluster env pod_name ns c = Except.ok [] := by
    unfold describe_pod_cluster; rw [hcfg]
  refine ⟨hp, hn, hd, hq, ?_, get_pods_clusters_checked env now ns _, by simp⟩
  unfold get_pods_from_cluster
  rw [get_pods_loop_drop env ns c hp pre post]
  cases get_pods_loop env ns (pre ++ post) <;> rfl

/-- C7 witness: with no resolvable cluster description, cluster `c` between
`a` and `b` is skipped everywhere while still being reported as checked. -/
theorem claim_C7_notfound_skip_witness :
    get_kubernetes_config ⟨none, none, fun _ => none, fun _ _ _ _ => none⟩ "c" =
      none ∧
    (get_pods_cluster ⟨none, none, fun _ => none, fun _ _ _ _ => none⟩ "" "c" =
        Except.ok [] ∧
      check_nodes_cluster ⟨none, none, fun _ => none, fun _ _ _ _ => none⟩ "c" =
        Except.ok [] ∧
      cluster_data_cluster ⟨none, none, fun _ => none, fun _ _ _ _ => none⟩ "c" =
        Except.ok [] ∧
      describe_pod_cluster ⟨none, none, fun _ => none, fun _ _ _ _ => none⟩
        "p" "" "c" = Except.ok [] ∧
      (get_pods_from_cluster ⟨none, none, fun _ => none, fun _ _ _ _ => none⟩
          "T" (["a"] ++ "c" :: ["b"]) "").getField? "results" =
        (get_pods_from_cluster ⟨none, none, fun _ => none, fun _ _ _ _ => none⟩
          "T" (["a"] ++ ["b"]) "").getField? "results" ∧
      (get_pods_from_cluster ⟨none, none, fun _ => none, fun _ _ _ _ => none⟩
          "T" (["a"] ++ "c" :: ["b"]) "").getField? "clusters_checked" =
        some (.arr ((["a"] ++ "c" :: ["b"]).map .str)) ∧
      "c" ∈ ["a"] ++ "c" :: ["b"]) :=
  ⟨rfl, claim_C7_notfound_skip ⟨none, none, fun _ => none, fun _ _ _ _ => none⟩
    "T" "" "p" "c" ["a"] ["b"] rfl⟩

/-- Pod item with no `metadata` key: projecting it raises `KeyError`, which
escapes the per-cluster loop to the function-level `except`. -/
def badPodC3 : Json := .obj [("x", .str "y")]

/-- Well-formed pod item served by the second cluster of `envC3`. -/
def goodPodC3 : Json :=
  .obj [("metadata", .obj [("name", .str "p2"), ("namespace", .str "default"),
                           ("creationTimestamp", .str "2024-01-01T00:00:00Z")]),
        ("status", .obj [("phase", .str "Running")]),
        ("spec", .obj [("nodeName", .str "n1")])]

/-- The record `get_pods_from_cluster` would build for `goodPodC3`. -/
def goodPodC3_record : Json :=
  .obj [("name", .str "p2"), ("namespace", .str "default"),
        ("status", .str "Running"), ("node", .str "n1"),
        ("created", .str "2024-01-01T00:00:00Z")]

/-- World with two reachable clusters: `c1` answers the pods listing with a
malformed item (no `metadata`), `c2` with a well-formed one. -/
def envC3 : K8sEnv :=
  { kubernetesToken := some "tok"
    clusterNameVar := some "c1"
    describeCluster := fun c =>
      if c = "c1" then some ("https://ep1", "ca1")
      else if c = "c2" then some ("https://ep2", "ca2")
      else none
    http := fun _ _ url _ =>
      if url = "https://ep1/api/v1/pods" then
        some { status := 200, body := "b1",
               parsed := some (.obj [("items", .arr [badPodC3])]) }
      else if url = "https://ep2/api/v1/pods" then
        some { status := 200, body := "b2",
               parsed := some (.obj [("items", .arr [goodPodC3])]) }
      else none }

/-- C3 counterexample: a failure while projecting cluster `c1`'s JSON does
NOT merely remove `c1`'s contribution — the whole operation returns the
error envelope, `c2`'s still-deliverable record included nowhere — whereas
over `[c2]` alone the record is delivered. This refutes the claim for the
projection-failure case (credential and API-call failures do behave as
claimed; see the amended theorem). -/
theorem claim_C3_counterexample :
    get_pods_cluster envC3 "" "c1" = Except.error "KeyError: metadata" ∧
    get_pods_cluster envC3 "" "c2" = Except.ok [goodPodC3_record] ∧
    (get_pods_from_cluster envC3 "T" ["c1", "c2"] "").getField? "results" =
      none ∧
    (get_pods_from_cluster envC3 "T" ["c1", "c2"] "").getField? "error" =
      some (.str "KeyError: metadata") ∧
    (get_pods_from_cluster envC3 "T" ["c2"] "").getField? "results" =
      some (.arr [goodPodC3_record]) :=
  ⟨rfl, rfl, rfl, rfl, rfl⟩

/-- C3 amended: a credential-lookup or API-call failure leaves that
cluster's contribution empty (`Except.ok []`), and any cluster whose
contribution is empty only removes its own entries from the aggregate —
every remaining cluster is still attempted and its results included. (A
failure while projecting a cluster's JSON into records, by contrast, aborts
the whole operation with a top-level error envelope and no results field,
as the counterexample shows.) -/
theorem claim_C3_amended (env : K8sEnv) (now ns c : String)
    (pre post : List String)
    (hpods : get_pods_cluster env ns c = Except.ok [])
    (hnodes : check_nodes_cluster env c = Except.ok []) :
    (get_pods_from_cluster env now (pre ++ c :: post) ns).getField? "results" =
      (get_pods_from_cluster env now (pre ++ post) ns).getField? "results" ∧
    (check_nodes env now (pre ++ c :: post)).getField? "results" =
      (check_nodes env now (pre ++ post)).getField? "results" := by
  constructor
  · unfold get_pods_from_cluster
    rw [get_pods_loop_drop env ns c hpods pre post]
    cases get_pods_loop env ns (pre ++ post) <;> rfl
  · unfold check_nodes
    rw [check_nodes_loop_drop env c hnodes pre post]
    cases check_nodes_loop env (pre ++ post) <;> rfl

/-- C3 amended witness: the unreachable cluster `c0` contributes nothing,
and the aggregate over `[c0, c2]` delivers exactly the record that `[c2]`
alone delivers. -/
theorem claim_C3_amended_witness :
    get_pods_cluster envC3 "" "c0" = Except.ok [] ∧
    check_nodes_cluster envC3 "c0" = Except.ok [] ∧
    ((get_pods_from_cluster envC3 "T" ([] ++ "c0" :: ["c2"]) "").getField?
        "results" =
      (get_pods_from_cluster envC3 "T" ([] ++ ["c2"]) "").getField? "results" ∧
    (check_nodes envC3 "T" ([] ++ "c0" :: ["c2"])).getField? "results" =
      (check_nodes envC3 "T" ([] ++ ["c2"])).getField? "results") :=
  ⟨rfl, rfl, claim_C3_amended envC3 "T" "" "c0" [] ["c2"] rfl rfl⟩

theorem exc_ok_bind {α β : Type} (a : α) (f : α → Except String β) :
    (Except.ok a >>= f) = f a := rfl

theorem exc_error_bind {α β : Type} (e : String) (f : α → Except String β) :
    ((Except.error e : Except String α) >>= f) = .error e := rfl

/-- Node object as returned by the Kubernetes nodes API, with the condition
list and the label dict left to the caller. -/
def mkNode (name : String) (conds : List Json) (version : String)
    (labels : List (String × Json)) (created : String) : Json :=
  .obj [("metadata", .obj [("name", .str name), ("labels", .obj labels),
                           ("creationTimestamp", .str created)]),
        ("status", .obj [("conditions", .arr conds),
                         ("nodeInfo", .obj [("kubeletVersion", .str version)])])]

/-- Boolean test one condition entry must pass inside `check_nodes`' `any`:
type `Ready` with status `True`. -/
def cond_ready_b (cj : Json) : Bool :=
  (match cj.getField? "type" with
   | some t => t.eqStr "Ready"
   | none => false) &&
  (match cj.getField? "status" with
   | some s => s.eqStr "True"
   | none => false)

theorem index_of_getField {cj : Json} {k : String} {t : Json}
    (h : cj.getField? k = some t) : cj.index k = Except.ok t := by
  cases cj <;> simp [Json.getField?] at h
  simp [Json.index, h]

theorem node_condition_ready_eq {cj : Json}
    (h : ((cj.getField? "type").isSome && (cj.getField? "status").isSome) = true) :
    node_condition_ready cj = Except.ok (cond_ready_b cj) := by
  rw [Bool.and_eq_true] at h
  cases ht : cj.getField? "type" with
  | none => rw [ht] at h; simp at h
  | some t =>
      cases hs : cj.getField? "status" with
      | none => rw [hs] at h; simp at h
      | some s =>
          unfold node_condition_ready cond_ready_b
          rw [index_of_getField ht, index_of_getField hs, ht, hs]

theorem any_condition_ready_eq (conds : List Json)
    (h : ∀ cj ∈ conds, ((cj.getField? "type").isSome &&
      (cj.getField? "status").isSome) = true) :
    any_condition_ready conds = Except.ok (conds.any cond_ready_b) := by
  induction conds with
  | nil => rfl
  | cons cj rest ih =>
      have h1 := node_condition_ready_eq (h cj (List.mem_cons_self cj rest))
      have h2 := ih (fun x hx => h x (List.mem_cons_of_mem cj hx))
      unfold any_condition_ready
      rw [h1]
      by_cases hb : cond_ready_b cj
      · simp [hb]
      · simp [hb, h2]

theorem cond_ready_b_iff (cj : Json) :
    cond_ready_b cj = true ↔
      cj.getField? "type" = some (.str "Ready") ∧
      cj.getField? "status" = some (.str "True") := by
  unfold cond_ready_b
  cases ht : cj.getField? "type" with
  | none => simp
  | some t =>
      cases hs : cj.getField? "status" with
      | none => simp
      | some s => cases t <;> cases s <;> simp [Json.eqStr]

/-- C4: in `check_nodes`, a well-formed node is reported "Ready" exactly
when its condition list holds at least one entry of type `Ready` with status
`True` (no other condition type counts), "NotReady" otherwise; and with no
instance-type label among its labels the record carries the literal
`instance_type` "Unknown". -/
theorem claim_C4_node_ready (name version created : String) (conds : List Json)
    (labels : List (String × Json))
    (hwf : ∀ cj ∈ conds, ((cj.getField? "type").isSome &&
      (cj.getField? "status").isSome) = true)
    (hlab : Json.lookupField labels "node.kubernetes.io/instance-type" = none) :
    ∃ rec, project_node (mkNode name conds version labels created) =
        Except.ok rec ∧
      (rec.getField? "status" = some (.str "Ready") ↔
        ∃ cj ∈ conds, cj.getField? "type" = some (.str "Ready") ∧
          cj.getField? "status" = some (.str "True")) ∧
      (rec.getField? "status" = some (.str "Ready") ∨
        rec.getField? "status" = some (.str "NotReady")) ∧
      rec.getField? "instance_type" = some (.str "Unknown") := by
  have hany := any_condition_ready_eq conds hwf
  refine ⟨.obj [("name", .str name),
      ("status", .str (if conds.any cond_ready_b then "Ready" else "NotReady")),
      ("version", .str version),
      ("instance_type", .str "Unknown"),
      ("created", .str created)], ?_, ?_, ?_, ?_⟩
  · simp [project_node, mkNode, Json.index, Json.lookupField, Json.asList,
      Json.dictGet, hany, hlab, exc_ok_bind]
  · by_cases hb : conds.any cond_ready_b = true
    · simp only [Json.getField?, Json.lookupField]
      simp [hb]
      obtain ⟨cj, hm, hcj⟩ := List.any_eq_true.mp hb
      exact ⟨cj, hm, (cond_ready_b_iff cj).mp hcj⟩
    · simp only [Json.getField?, Json.lookupField]
      simp [hb]
      rintro cj hm h1 h2
      exact hb (List.any_eq_true.mpr ⟨cj, hm, (cond_ready_b_iff cj).mpr ⟨h1, h2⟩⟩)
  · by_cases hb : conds.any cond_ready_b = true
    · left; simp [Json.getField?, Json.lookupField, hb]
    · right; simp [Json.getField?, Json.lookupField, hb]
  · rfl

/-- Condition entry `type : Ready, status : False`. -/
def condReadyFalse : Json :=
  .obj [("type", .str "Ready"), ("status", .str "False")]

/-- Condition entry `type : MemoryPressure, status : False`. -/
def condMemFalse : Json :=
  .obj [("type", .str "MemoryPressure"), ("status", .str "False")]

/-- C4 witness: a node whose conditions are `Ready : False` and
`MemoryPressure : False` satisfies the theorem's hypotheses, and its record
reports "NotReady". -/
theorem claim_C4_node_ready_witness :
    (∀ cj ∈ [condReadyFalse, condMemFalse], ((cj.getField? "type").isSome &&
      (cj.getField? "status").isSome) = true) ∧
    Json.lookupField [] "node.kubernetes.io/instance-type" = none ∧
    (project_node (mkNode "n1" [condReadyFalse, condMemFalse] "v1.29" []
        "2024-01-01")).map (fun r => r.getField? "status") =
      Except.ok (some (.str "NotReady")) ∧
    (∃ rec, project_node (mkNode "n1" [condReadyFalse, condMemFalse] "v1.29" []
        "2024-01-01") = Except.ok rec ∧
      (rec.getField? "status" = some (.str "Ready") ↔
        ∃ cj ∈ [condReadyFalse, condMemFalse],
          cj.getField? "type" = some (.str "Ready") ∧
          cj.getField? "status" = some (.str "True")) ∧
      (rec.getField? "status" = some (.str "Ready") ∨
        rec.getField? "status" = some (.str "NotReady")) ∧
      rec.getField? "instance_type" = some (.str "Unknown")) :=
  ⟨by decide, rfl, rfl,
   claim_C4_node_ready "n1" "v1.29" "2024-01-01" [condReadyFalse, condMemFalse]
     [] (by decide) rfl⟩

theorem get_pods_loop_ok (env : K8sEnv) (ns : String)
    (contrib : String → List Json) :
    ∀ clusters : List String,
      (∀ c ∈ clusters, get_pods_cluster env ns c = Except.ok (contrib c)) →
      get_pods_loop env ns clusters = Except.ok ((clusters.map contrib).flatten)
  | [], _ => rfl
  | c :: rest, h => by
      rw [get_pods_loop_cons, h c (List.mem_cons_self c rest),
        get_pods_loop_ok env ns contrib rest
          (fun x hx => h x (List.mem_cons_of_mem c hx))]
      simp

/-- Pod item as returned by the Kubernetes pods API, with the `spec` dict
left to the caller (so `nodeName` may be present or absent). -/
def mkPod (pname pns phase : String) (spec_fields : List (String × Json))
    (created : String) : Json :=
  .obj [("metadata", .obj [("name", .str pname), ("namespace", .str pns),
                           ("creationTimestamp", .str created)]),
        ("status", .obj [("phase", .str phase)]),
        ("spec", .obj spec_fields)]

/-- C8: the pods listing hits `{endpoint}/api/v1/namespaces/{ns}/pods` for a
non-empty namespace parameter and `{endpoint}/api/v1/pods` for the empty one;
a cluster with a successful call and parseable items contributes exactly the
projection of its items; a well-formed pod item projects to the record
`(name, namespace, phase, node-or-Unknown, creation timestamp)`; and the
envelope's `results` is the concatenation, in configured cluster order, of
the per-cluster contributions. -/
theorem claim_C8_list_pods (env : K8sEnv) (now ns : String)
    (clusters : List String) (contrib : String → List Json)
    (c0 ep ca tok ns2 ep2 pname pns phase created : String)
    (spec_fields : List (String × Json)) (data : Json) (items recs : List Json)
    (hc : ∀ c ∈ clusters, get_pods_cluster env ns c = Except.ok (contrib c))
    (hcfg : get_kubernetes_config env c0 = some (ep, ca, tok))
    (hep : ¬ ep = "")
    (hreq : make_k8s_request env (pods_api_url ep ns) tok Method.GET none =
      some data)
    (htr : data.truthy = true)
    (hitems : data.dictGet "items" (Json.arr []) = Except.ok (Json.arr items))
    (hproj : mapME project_pod items = Except.ok recs)
    (hns2 : ¬ ns2 = "") :
    get_pods_from_cluster env now clusters ns =
      results_envelope now clusters ((clusters.map contrib).flatten) ∧
    get_pods_cluster env ns c0 = Except.ok recs ∧
    pods_api_url ep2 ns2 = ep2 ++ "/api/v1/namespaces/" ++ ns2 ++ "/pods" ∧
    pods_api_url ep2 "" = ep2 ++ "/api/v1/pods" ∧
    project_pod (mkPod pname pns phase spec_fields created) =
      Except.ok (.obj [("name", .str pname), ("namespace", .str pns),
        ("status", .str phase),
        ("node", (Json.lookupField spec_fields "nodeName").getD (.str "Unknown")),
        ("created", .str created)]) := by
  refine ⟨?_, ?_, ?_, rfl, rfl⟩
  · unfold get_pods_from_cluster
    rw [get_pods_loop_ok env ns contrib clusters hc]
  · unfold get_pods_cluster
    rw [hcfg]; dsimp only
    rw [if_neg hep, hreq]; dsimp only
    rw [if_pos htr, hitems]
    simpa [Json.asList] using hproj
  · unfold pods_api_url
    rw [if_pos hns2]

/-- Pod item served by `envC8` (its `spec` has no `nodeName`). -/
def podC8 : Json := mkPod "p1" "default" "Running" [] "2024-02-02"

/-- The record `get_pods_from_cluster` builds for `podC8`. -/
def podC8_record : Json :=
  .obj [("name", .str "p1"), ("namespace", .str "default"),
        ("status", .str "Running"), ("node", .str "Unknown"),
        ("created", .str "2024-02-02")]

/-- World with one reachable cluster answering the namespaced pods listing
for namespace `default` with a single pod item. -/
def envC8 : K8sEnv :=
  { kubernetesToken := some "tok"
    clusterNameVar := some "c1"
    describeCluster := fun c =>
      if c = "c1" then some ("https://ep1", "ca1") else none
    http := fun _ m url _ =>
      if m = Method.GET ∧ url = "https://ep1/api/v1/namespaces/default/pods" then
        some { status := 200, body := "b",
               parsed := some (.obj [("items", .arr [podC8])]) }
      else none }

/-- C8 witness: listing pods of namespace `default` over `[c1]` delivers
exactly the projected record through the namespaced URL. -/
theorem claim_C8_list_pods_witness :
    get_pods_from_cluster envC8 "T" ["c1"] "default" =
      results_envelope "T" ["c1"]
        ((["c1"].map (fun _ => [podC8_record])).flatten) ∧
    get_pods_cluster envC8 "default" "c1" = Except.ok [podC8_record] ∧
    pods_api_url "https://ep1" "default" =
      "https://ep1" ++ "/api/v1/namespaces/" ++ "default" ++ "/pods" ∧
    pods_api_url "https://ep1" "" = "https://ep1" ++ "/api/v1/pods" ∧
    project_pod (mkPod "p1" "default" "Running" [] "2024-02-02") =
      Except.ok (.obj [("name", .str "p1"), ("namespace", .str "default"),
        ("status", .str "Running"),
        ("node", (Json.lookupField [] "nodeName").getD (.str "Unknown")),
        ("created", .str "2024-02-02")]) :=
  claim_C8_list_pods envC8 "T" "default" ["c1"] (fun _ => [podC8_record])
    "c1" "https://ep1" "ca1" "tok" "default" "https://ep1" "p1" "default"
    "Running" "2024-02-02" [] (.obj [("items", .arr [podC8])]) [podC8]
    [podC8_record]
    (fun c hcm => by rw [List.mem_singleton.mp hcm]; rfl)
    rfl (by decide) rfl rfl rfl rfl (by decide)

/-- C1 (settled against the spec-modelled base variant, whose source file is
not in the repository snapshot): routing `/create-pod` invokes `CreatePod`
with the defaulted parameters; for a configured cluster whose credential
resolves, the per-cluster result is determined by the POST of the minimal
manifest to the namespaced pods path — `created` on a 20x
status, `failed` with the status code and body otherwise; the manifest
declares one container named after the pod with the given image, container
port 80 and restart policy "Always"; and the operation (a total function —
it never raises past its boundary) aggregates exactly the per-cluster
results. -/
theorem claim_C1_create_pod (env : K8sEnv) (now : String)
    (props : List (String × String)) (c ep ca tok : String)
    (resp : HttpResponse)
    (hcfg : get_kubernetes_config env c = some (ep, ca, tok))
    (hep : ¬ ep = "")
    (hresp : env.http tok Method.POST
      (ep ++ "/api/v1/namespaces/" ++ "default" ++ "/pods")
      (some (create_pod_manifest "test-pod" "nginx" "default")) = some resp) :
    route_base env now "/create-pod" props =
      create_pod env now (configured_clusters env)
        (param_get props "name" "test-pod") (param_get props "image" "nginx")
        (param_get props "namespace" "default") ∧
    create_pod_cluster env "test-pod" "nginx" "default" c =
      some (if 200 ≤ resp.status ∧ resp.status < 300 then
              create_pod_created c "test-pod" "nginx" "default"
            else create_pod_failed c resp.status resp.body) ∧
    (create_pod_manifest "test-pod" "nginx" "default").getField? "spec" =
      some (.obj [("containers",
        .arr [.obj [("name", .str "test-pod"), ("image", .str "nginx"),
                    ("ports", .arr [.obj [("containerPort", .num 80)]])]]),
        ("restartPolicy", .str "Always")]) ∧
    (create_pod env now (configured_clusters env) "test-pod" "nginx"
        "default").getField? "results" =
      some (.arr ((configured_clusters env).filterMap
        (create_pod_cluster env "test-pod" "nginx" "default"))) := by
  refine ⟨rfl, ?_, rfl, rfl⟩
  unfold create_pod_cluster
  rw [hcfg]; dsimp only
  rw [if_neg hep, hresp]; dsimp only
  by_cases hs : 200 ≤ resp.status ∧ resp.status < 300
  · rw [if_pos hs, if_pos hs]
  · rw [if_neg hs, if_neg hs]

/-- World with one reachable cluster whose API answers the pod-creation POST
with HTTP 201. -/
def envC1 : K8sEnv :=
  { kubernetesToken := some "tok"
    clusterNameVar := some "c1"
    describeCluster := fun c =>
      if c = "c1" then some ("https://ep1", "ca1") else none
    http := fun _ m url _ =>
      if m = Method.POST ∧ url = "https://ep1/api/v1/namespaces/default/pods" then
        some { status := 201, body := "created", parsed := some (.obj []) }
      else none }

/-- C1 witness: `/create-pod` with no parameters against `envC1` creates
`test-pod` on the single configured cluster (HTTP 201 is a 20x status). -/
theorem claim_C1_create_pod_witness :
    route_base envC1 "T" "/create-pod" [] =
      create_pod envC1 "T" (configured_clusters envC1)
        (param_get [] "name" "test-pod") (param_get [] "image" "nginx")
        (param_get [] "namespace" "default") ∧
    create_pod_cluster envC1 "test-pod" "nginx" "default" "c1" =
      some (if 200 ≤ (201 : Nat) ∧ (201 : Nat) < 300 then
              create_pod_created "c1" "test-pod" "nginx" "default"
            else create_pod_failed "c1" 201 "created") ∧
    (create_pod_manifest "test-pod" "nginx" "default").getField? "spec" =
      some (.obj [("containers",
        .arr [.obj [("name", .str "test-pod"), ("image", .str "nginx"),
                    ("ports", .arr [.obj [("containerPort", .num 80)]])]]),
        ("restartPolicy", .str "Always")]) ∧
    (create_pod envC1 "T" (configured_clusters envC1) "test-pod" "nginx"
        "default").getField? "results" =
      some (.arr ((configured_clusters envC1).filterMap
        (create_pod_cluster envC1 "test-pod" "nginx" "default"))) :=
  claim_C1_create_pod envC1 "T" [] "c1" "https://ep1" "ca1" "tok"
    { status := 201, body := "created", parsed := some (.obj []) }
    rfl (by decide) rfl
